import Mathlib

set_option maxHeartbeats 1000000

/-!
Verification of the Archon AI-agent detection / command-execution core
(`python/src/server/services/ai_detection/`): a shallow embedding of
`command_execution_service.py`, `agent_detection_service.py` and
`detection_strategies.py`, followed by theorems settling the spec claims.

Conventions of the embedding:
* Python strings are Lean `String`s; `str.lower` is modelled for the ASCII
  range (the deny-list and all fixed fragments are ASCII).
* Filesystem-dependent operations (`Path.resolve`) and subprocess I/O are
  oracles passed in as function parameters; everything else is transcribed
  from the source.
* Python code that can raise is embedded in `Except`; a `try/except` in the
  source becomes an explicit `match` on the `Except` value.
-/

namespace Archon

/-- Characters treated as whitespace by Python `str.strip()` and by the
regex class `\s` (ASCII range). -/
def pyIsSpace (c : Char) : Bool :=
  c = ' ' || c = '\t' || c = '\n' || c = '\r' || c = '\x0b' || c = '\x0c'

/-- Python `str.lower` on one character, modelled for the ASCII range
(`Char.toLower` lowercases exactly the ASCII letters). -/
def pyLowerChar (c : Char) : Char := c.toLower

/-- Python `str.lower`. -/
def pyLower (s : String) : String := String.mk (s.data.map pyLowerChar)

/-- Strip leading and trailing whitespace from a character list. -/
def stripList (l : List Char) : List Char :=
  ((l.dropWhile pyIsSpace).reverse.dropWhile pyIsSpace).reverse

/-- Python `str.strip()`. -/
def pyStrip (s : String) : String := String.mk (stripList s.data)

/-- Python substring containment `sub in s` on character lists. -/
def listHasInfix (sub : List Char) : List Char → Bool
  | [] => sub.isEmpty
  | c :: rest => sub.isPrefixOf (c :: rest) || listHasInfix sub rest

/-- Python `sub in s` for strings. -/
def containsSub (s sub : String) : Bool := listHasInfix sub.data s.data

/-- Python `s.count(c)` for a single-character needle. -/
def pyCountChar (s : String) (c : Char) : Nat := s.data.count c

/-- The double-quote character. -/
def dquoteChar : Char := Char.ofNat 34

/-- The single-quote character. -/
def squoteChar : Char := Char.ofNat 39

/-- Test for either quote character. -/
def isQuoteChar (c : Char) : Bool := c = dquoteChar || c = squoteChar

/-! ## CommandValidator (command_execution_service.py, lines 29-142) -/

/-- Deny-list `CommandValidator.BLOCKED_COMMANDS` (source lines 33-38).
The source stores these in a Python `set`, whose iteration order is
unspecified; the list below keeps the order of the source text.  All
claim statements about this list are order-independent. -/
def BLOCKED_COMMANDS : List String :=
  ["rm -rf /", "rm -rf /*", "sudo rm -rf", "mkfs", "dd if=/",
   "wget", "curl", "apt-get", "yum", "brew", "npm install",
   "chmod 777", "chown", "useradd", "userdel", "passwd",
   "docker", "kubectl", "git clone", "scp", "ssh"]

/-- One entry of `CommandValidator.BLOCKED_PATTERNS`: the regex source text
(used in the warning message), a literal fragment, and an optional second
literal for the two patterns of the shape `lit1.*lit2`. -/
structure PatternDef where
  src : String
  l1 : String
  l2 : Option String
deriving DecidableEq

/-- Matching of `lit1.*lit2` under `re.search`: an occurrence of `lit1`
followed, with no intervening newline (regex `.` does not match `\n`),
by an occurrence of `lit2`. -/
def dotStarMatch (l1 l2 : List Char) : List Char → Bool
  | [] => false
  | c :: rest =>
    (l1.isPrefixOf (c :: rest) &&
      listHasInfix l2 (((c :: rest).drop l1.length).takeWhile (fun x => ¬ x = '\n')))
    || dotStarMatch l1 l2 rest

/-- Whether `re.search(p, s)` finds a match; every entry of
`BLOCKED_PATTERNS` is a literal or of the shape `lit1.*lit2`. -/
def patMatches (p : PatternDef) (s : String) : Bool :=
  match p.l2 with
  | none => containsSub s p.l1
  | some l2 => dotStarMatch p.l1.data l2.data s.data

/-- The pattern list `CommandValidator.BLOCKED_PATTERNS` (source lines
41-45), in source order. -/
def BLOCKED_PATTERNS : List PatternDef :=
  [⟨"> /dev/null", "> /dev/null", none⟩,
   ⟨">&", ">&", none⟩,
   ⟨"2>&1", "2>&1", none⟩,
   ⟨"\\.\\./", "../", none⟩,
   ⟨"~/", "~/", none⟩,
   ⟨"\\$\\(", "$(", none⟩,
   ⟨"\\$\\\x7b", "$\x7b", none⟩,
   ⟨"\x60", "\x60", none⟩,
   ⟨"&&", "&&", none⟩,
   ⟨"\\|\\|", "||", none⟩,
   ⟨";", ";", none⟩,
   ⟨"&&.*&&", "&&", some "&&"⟩,
   ⟨"\\|\\|.*\\|\\|", "||", some "||"⟩]

/-- Allow-list `CommandValidator.ALLOWED_EXTENSIONS` (source lines 48-51). -/
def ALLOWED_EXTENSIONS : List String :=
  [".md", ".txt", ".py", ".js", ".ts", ".json", ".yaml", ".yml",
   ".html", ".css", ".sql", ".sh", ".ps1", ".bat", ".env"]

/-- Scanner for `re.findall` with pattern `[\'"](.*?)[\'"]` (source line
116): the first component is the pending lazily-matched body once an
opening quote has been seen (`none` when scanning for an opening quote).
A newline aborts the pending match (regex `.` does not match `\n`) and,
since no quote was seen in between, scanning resumes after it. -/
def findQuotedGo : Option (List Char) → List Char → List String
  | _, [] => []
  | none, c :: rest =>
    if isQuoteChar c then findQuotedGo (some []) rest else findQuotedGo none rest
  | some acc, c :: rest =>
    if isQuoteChar c then String.mk acc.reverse :: findQuotedGo none rest
    else if c = '\n' then findQuotedGo none rest
    else findQuotedGo (some (c :: acc)) rest

/-- Captures of `re.findall` for the quoted-file pattern. -/
def findQuoted (l : List Char) : List String := findQuotedGo none l

/-- Word characters of regex `\w` (ASCII range). -/
def isWordChar (c : Char) : Bool := c.isAlphanum || c = '_'

/-- Structure test for the token of pattern
`(?:\s|^)([^\'"\s]+\.\w+)(?:\s|$)` (source line 117): the run `r` of
non-quote non-space characters matches when it ends in a non-empty block
of word characters preceded by a dot that is itself preceded by at least
one further character. -/
def uqTokenOk (r : List Char) : Bool :=
  let wsuf := r.reverse.takeWhile isWordChar
  let rest := r.reverse.drop wsuf.length
  ¬ wsuf.isEmpty &&
  (match rest with
   | '.' :: pre => ¬ pre.isEmpty
   | _ => false)

/-- Scanner state for the unquoted-file pattern: whether a token may start
at the current position (it may at the string start, or right after an
unconsumed whitespace character), and the reversed accumulator of the run
being read. -/
inductive UqState where
  | allowed : UqState
  | blocked : UqState
  | inRun : List Char → UqState
deriving DecidableEq

/-- One-pass simulation of `re.findall` for
`(?:\s|^)([^\'"\s]+\.\w+)(?:\s|$)`.  A successful match consumes its
trailing whitespace character, so the character after it cannot serve as
the leading `\s` of the next match (tokens separated by a single space
are found only alternately, as in the Python original); a failed run, a
quote, or any character while blocked leaves the following run
unmatchable until the next whitespace. -/
def findUnquotedGo : UqState → List Char → List String
  | UqState.allowed, [] => []
  | UqState.blocked, [] => []
  | UqState.inRun acc, [] =>
    if uqTokenOk acc.reverse then [String.mk acc.reverse] else []
  | UqState.allowed, c :: rest =>
    if pyIsSpace c then findUnquotedGo UqState.allowed rest
    else if isQuoteChar c then findUnquotedGo UqState.blocked rest
    else findUnquotedGo (UqState.inRun [c]) rest
  | UqState.blocked, c :: rest =>
    if pyIsSpace c then findUnquotedGo UqState.allowed rest
    else findUnquotedGo UqState.blocked rest
  | UqState.inRun acc, c :: rest =>
    if pyIsSpace c then
      if uqTokenOk acc.reverse then
        String.mk acc.reverse :: findUnquotedGo UqState.blocked rest
      else findUnquotedGo UqState.allowed rest
    else if isQuoteChar c then findUnquotedGo UqState.blocked rest
    else findUnquotedGo (UqState.inRun (c :: acc)) rest

/-- Captures of `re.findall` for the unquoted-file pattern. -/
def findUnquoted (l : List Char) : List String := findUnquotedGo UqState.allowed l

/-- File-path tokens extracted by `_validate_file_paths` (source lines
115-121): all captures of the quoted pattern, then all captures of the
unquoted pattern, processed in that order. -/
def extractFilePaths (cmd : String) : List String :=
  findQuoted cmd.data ++ findUnquoted cmd.data

/-- Python `pathlib.Path(f).suffix` on the final path component: the part
of the name from its last dot, empty when the dot is absent, leading or
trailing ('.'-components and platform quirks are not modelled; no claim
depends on them). -/
def pySuffix (f : String) : String :=
  let name := ((f.data.reverse.dropWhile (fun c => c = '/')).takeWhile (fun c => ¬ c = '/')).reverse
  let post := name.reverse.takeWhile (fun c => ¬ c = '.')
  if post.length = name.length then ""
  else if post.length = 0 then ""
  else if post.length = name.length - 1 then ""
  else String.mk ('.' :: post.reverse)

/-- Python `s.startswith(pre)`. -/
def pyStartsWith (s pre : String) : Bool := pre.data.isPrefixOf s.data

/-- Loop body of `_validate_file_paths` (source lines 120-136) over the
extracted tokens.  `resolve` is the filesystem oracle for
`Path(x).resolve()` (`Except.error` = the call raised).  A failed or
escaping resolution returns `False` (lines 126-132).  A suffix outside
`ALLOWED_EXTENSIONS` reaches `warnings.append(...)` on line 136, where
the name `warnings` is unbound in that scope: the `NameError` is caught
by the enclosing `except Exception` (lines 140-142), so the call also
yields `False`. -/
def vfpLoop (resolve : String → Except String String) (dir : String) :
    List String → Bool
  | [] => true
  | f :: fs =>
    match resolve f with
    | Except.error _ => false
    | Except.ok p =>
      if ¬ pyStartsWith p dir then false
      else if ¬ ALLOWED_EXTENSIONS.contains (pyLower (pySuffix f)) then false
      else vfpLoop resolve dir fs

/-- Embedding of `CommandValidator._validate_file_paths` (source lines
108-142).  A failing resolution of the working directory propagates to
the blanket `except Exception` and yields `False`. -/
def validate_file_paths (resolve : String → Except String String)
    (cmd wd : String) : Bool :=
  match resolve wd with
  | Except.error _ => false
  | Except.ok dir => vfpLoop resolve dir (extractFilePaths cmd)

/-- Normalization applied before the deny-list scan (source line 81):
`command.lower().strip()`. -/
def pyNormalized (cmd : String) : String := pyStrip (pyLower cmd)

/-- Verdict structure returned by `validate_command`. -/
structure ValidationResult where
  valid : Bool
  errors : List String
  warnings : List String
deriving DecidableEq

/-- Length error (source lines 77-78). -/
def lengthErrors (cmd : String) : List String :=
  if cmd.length > 1000 then ["Command too long (max 1000 characters)"] else []

/-- Deny-list errors (source lines 81-84), one per matching fragment. -/
def blockedErrors (cmd : String) : List String :=
  (BLOCKED_COMMANDS.filter fun b => containsSub (pyNormalized cmd) (pyLower b)).map
    fun b => "Blocked command detected: " ++ b

/-- Pattern warnings (source lines 87-89), matched against the normalized
command. -/
def patternWarnings (cmd : String) : List String :=
  (BLOCKED_PATTERNS.filter fun p => patMatches p (pyNormalized cmd)).map
    fun p => "Potentially dangerous pattern: " ++ p.src

/-- File-path error (source lines 92-95); the working directory is only
checked when truthy, i.e. present and non-empty. -/
def filePathErrors (resolve : String → Except String String) (cmd : String) :
    Option String → List String
  | none => []
  | some w =>
    if w = "" then []
    else if validate_file_paths resolve cmd w then []
    else ["Unsafe file operations detected"]

/-- Quote-parity warning (source lines 98-100). -/
def quoteWarnings (cmd : String) : List String :=
  if (pyCountChar cmd dquoteChar + pyCountChar cmd squoteChar) % 2 ≠ 0 then
    ["Unmatched quotes detected - may cause parsing issues"]
  else []

/-- Embedding of `CommandValidator.validate_command` (source lines
56-106).  `resolve` is the filesystem oracle used by the file-path
check. -/
def validate_command (resolve : String → Except String String)
    (cmd : String) (wd : Option String) : ValidationResult :=
  if pyStrip cmd = "" then ⟨false, ["Command cannot be empty"], []⟩
  else
    let errs := lengthErrors cmd ++ blockedErrors cmd ++ filePathErrors resolve cmd wd
    ⟨errs.isEmpty, errs, patternWarnings cmd ++ quoteWarnings cmd⟩

/-! ## Data model (models.py) -/

/-- Enumeration `ToolStatus` (models.py lines 13-18). -/
inductive ToolStatus where
  | available : ToolStatus
  | missing : ToolStatus
  | error : ToolStatus
  | unknown : ToolStatus
deriving DecidableEq

/-- Enumeration `ToolType` (models.py lines 21-25). -/
inductive ToolType where
  | claude_code : ToolType
  | gemini_cli : ToolType
  | qwen_code : ToolType
deriving DecidableEq

/-- The `.value` string of a `ToolType` member. -/
def ToolType.value : ToolType → String
  | ToolType.claude_code => "claude_code"
  | ToolType.gemini_cli => "gemini_cli"
  | ToolType.qwen_code => "qwen_code"

/-- Model `DetectedTool` (models.py lines 28-37).  The free-form metadata
mapping is modelled as an association list of strings; the
`last_detected` timestamp field is omitted (no claim mentions it). -/
structure DetectedTool where
  name : String
  tool_type : ToolType
  status : ToolStatus
  executable_path : Option String
  version : Option String
  metadata : List (String × String)
deriving DecidableEq

/-- Model `DetectionRequest` (models.py lines 50-57). -/
structure DetectionRequest where
  tools_to_detect : List ToolType
  force_refresh : Bool
deriving DecidableEq

/-- Model `DetectionResult` (models.py lines 40-47); timestamps and the
elapsed time are abstract `Nat` ticks supplied by the caller. -/
structure DetectionResult where
  tools : List DetectedTool
  total_detected : Nat
  detection_timestamp : Nat
  errors : List String
  execution_time_ms : Nat
deriving DecidableEq

/-- Model `ExecuteRequest` (models.py lines 60-66). -/
structure ExecuteRequest where
  tool_type : ToolType
  command : String
  timeout_seconds : Int
  working_directory : Option String
deriving DecidableEq

/-- Model `ExecuteResponse` (models.py lines 69-77); `execution_time_ms`
is an abstract `Nat` tick. -/
structure ExecuteResponse where
  success : Bool
  stdout : Option String
  stderr : Option String
  return_code : Int
  execution_time_ms : Nat
  error_message : Option String
deriving DecidableEq

/-! ## Association-list model of Python dicts -/

/-- Python dict assignment `d[k] = v`: replace in place or append. -/
def insertAssoc {β : Type} (k : String) (v : β) : List (String × β) → List (String × β)
  | [] => [(k, v)]
  | (k2, v2) :: rest =>
    if k2 = k then (k, v) :: rest else (k2, v2) :: insertAssoc k v rest

/-- Python dict lookup `d.get(k)` / `d[k]`. -/
def lookupAssoc {β : Type} (k : String) : List (String × β) → Option β
  | [] => none
  | (k2, v2) :: rest => if k2 = k then some v2 else lookupAssoc k rest

/-- Python dict deletion `del d[k]` (keys are unique in a dict, so
removing every entry with the key is equivalent). -/
def eraseAssoc {β : Type} (k : String) (l : List (String × β)) : List (String × β) :=
  l.filter fun p => ¬ p.1 = k

/-! ## AgentDetectionService (agent_detection_service.py) -/

/-- Cache state of `AgentDetectionService` (lines 31-35): the
identifier-keyed store and the single cache-wide timestamp (an abstract
`Nat` clock in seconds). -/
structure DetectionCache where
  cache : List (String × DetectedTool)
  timestamp : Option Nat
deriving DecidableEq

/-- The cache TTL `timedelta(minutes=5)` in seconds. -/
def cacheTTLSeconds : Nat := 300

/-- Embedding of `AgentDetectionService._is_cache_valid` (lines 269-274):
a timestamp must be present, the store non-empty, and the age below the
TTL. -/
def is_cache_valid (now : Nat) (s : DetectionCache) : Bool :=
  match s.timestamp with
  | none => false
  | some ts => ¬ s.cache.isEmpty && now - ts < cacheTTLSeconds

/-- Embedding of `AgentDetectionService.get_tool_status` (lines 132-160).
`detectO` is the probing oracle covering `create_strategy` plus
`strategy.detect()` (`Except.error` = the attempt raised; the enclosing
`except` then returns `None`).  The middle component of the result
records whether a detection probe was performed. -/
def get_tool_status (detectO : ToolType → Except String DetectedTool)
    (now : Nat) (s : DetectionCache) (tt : ToolType) :
    Option DetectedTool × Bool × DetectionCache :=
  if is_cache_valid now s && (lookupAssoc tt.value s.cache).isSome then
    (lookupAssoc tt.value s.cache, false, s)
  else
    match detectO tt with
    | Except.error _ => (none, true, s)
    | Except.ok tool =>
      (some tool, true, ⟨insertAssoc tt.value tool s.cache, some now⟩)

/-- Python `str.title()` on one pass, tracking whether the previous
character was cased (ASCII model). -/
def pyTitleGo : Bool → List Char → List Char
  | _, [] => []
  | prevCased, c :: rest =>
    let cased := c.isAlpha
    let c2 := if cased then (if prevCased then c.toLower else c.toUpper) else c
    c2 :: pyTitleGo cased rest

/-- Python `s.title().replace('_', ' ')` as used for the placeholder name
(agent_detection_service.py line 87). -/
def titleUnderscore (s : String) : String :=
  String.mk ((pyTitleGo false s.data).map fun c => if c = '_' then ' ' else c)

/-- Placeholder `DetectedTool` built for a tool whose detection raised
(agent_detection_service.py lines 86-91). -/
def errorPlaceholder (tt : ToolType) (e : String) : DetectedTool :=
  ⟨titleUnderscore tt.value, tt, ToolStatus.error, none, none, [("error", e)]⟩

/-- Detection loop of `detect_tools` (lines 71-91): accumulated tools,
errors and cache updates, one step per requested tool. -/
def detectLoop (detectO : ToolType → Except String DetectedTool) :
    List ToolType → List DetectedTool → List String → List (String × DetectedTool) →
    List DetectedTool × List String × List (String × DetectedTool)
  | [], tools, errors, cache => (tools, errors, cache)
  | tt :: rest, tools, errors, cache =>
    match detectO tt with
    | Except.ok tool =>
      detectLoop detectO rest (tools ++ [tool]) errors (insertAssoc tt.value tool cache)
    | Except.error e =>
      detectLoop detectO rest (tools ++ [errorPlaceholder tt e])
        (errors ++ ["Error detecting " ++ tt.value ++ ": " ++ e]) cache

/-- Number of tools counted as detected (lines 56 and 97). -/
def countAvailable (tools : List DetectedTool) : Nat :=
  tools.countP fun t => t.status = ToolStatus.available

/-- Embedding of `AgentDetectionService.detect_tools` (lines 37-130).
`now` is the abstract clock and `elapsed` the measured batch time. -/
def detect_tools (detectO : ToolType → Except String DetectedTool)
    (now elapsed : Nat) (s : DetectionCache) (req : DetectionRequest) :
    DetectionResult × DetectionCache :=
  if !req.force_refresh && is_cache_valid now s then
    (⟨s.cache.map Prod.snd, countAvailable (s.cache.map Prod.snd),
      s.timestamp.getD now, [], 0⟩, s)
  else
    let cache0 := if req.force_refresh then [] else s.cache
    let r := detectLoop detectO req.tools_to_detect [] [] cache0
    (⟨r.1, countAvailable r.1, now, r.2.1, elapsed⟩, ⟨r.2.2, some now⟩)

/-! ## Version extraction (detection_strategies.py, lines 30-90) -/

/-- Maximal run of ASCII digits (regex `[0-9]+`, which never needs to
backtrack in the version patterns because the following token is never a
digit). -/
def parseNum (l : List Char) : Option (List Char × List Char) :=
  let ds := l.takeWhile Char.isDigit
  if ds.isEmpty then none else some (ds, l.drop ds.length)

/-- Match `[0-9]+\.[0-9]+` at the head of the input, returning the
matched text. -/
def parsePairAt (l : List Char) : Option (List Char) :=
  match parseNum l with
  | none => none
  | some (d1, r1) =>
    match r1 with
    | '.' :: r2 =>
      match parseNum r2 with
      | none => none
      | some (d2, _) => some (d1 ++ '.' :: d2)
    | _ => none

/-- Match `[0-9]+\.[0-9]+\.[0-9]+` at the head of the input. -/
def parseTripletAt (l : List Char) : Option (List Char) :=
  match parseNum l with
  | none => none
  | some (d1, r1) =>
    match r1 with
    | '.' :: r2 =>
      match parseNum r2 with
      | none => none
      | some (d2, r3) =>
        match r3 with
        | '.' :: r4 =>
          match parseNum r4 with
          | none => none
          | some (d3, _) => some (d1 ++ '.' :: d2 ++ '.' :: d3)
        | _ => none
    | _ => none

/-- Case-insensitive literal prefix match, returning the remainder. -/
def ciPrefix : List Char → List Char → Option (List Char)
  | [], l => some l
  | _, [] => none
  | p :: ps, c :: cs => if c.toLower = p then ciPrefix ps cs else none

/-- Pattern `version\s+([0-9]+\.[0-9]+\.[0-9]+)` at the head of the
input (group 1 only). -/
def matchP1 (l : List Char) : Option (List Char) :=
  match ciPrefix "version".data l with
  | none => none
  | some r1 =>
    let ws := r1.takeWhile pyIsSpace
    if ws.isEmpty then none else parseTripletAt (r1.drop ws.length)

/-- Pattern `v([0-9]+\.[0-9]+\.[0-9]+)` at the head of the input. -/
def matchP2 (l : List Char) : Option (List Char) :=
  match l with
  | [] => none
  | c :: rest => if c.toLower = 'v' then parseTripletAt rest else none

/-- Leftmost-match search: try the matcher at each position from the
left, like `re.search`. -/
def searchAux (f : List Char → Option (List Char)) : List Char → Option (List Char)
  | [] => f []
  | c :: rest =>
    match f (c :: rest) with
    | some g => some g
    | none => searchAux f rest

/-- Embedding of `DetectionStrategy._extract_version` (lines 70-90): the
four version regexes in order, then the first-line fallback. -/
def extract_version (s : String) : Option String :=
  match searchAux matchP1 s.data with
  | some g => some (String.mk g)
  | none =>
  match searchAux matchP2 s.data with
  | some g => some (String.mk g)
  | none =>
  match searchAux parseTripletAt s.data with
  | some g => some (String.mk g)
  | none =>
  match searchAux parsePairAt s.data with
  | some g => some (String.mk g)
  | none =>
    let firstLine := stripList (s.data.takeWhile fun c => ¬ c = '\n')
    if ¬ firstLine.isEmpty && ¬ "ERROR".data.isPrefixOf firstLine && firstLine.length < 100 then
      some (String.mk firstLine)
    else none

/-- Alternate-flag loop of `get_version` (lines 47-62): per-flag
exceptions continue the loop; a zero exit whose output yields a truthy
(non-empty) version returns it. -/
def tryFlags (run : String → Except String (Int × String)) : List String → Option String
  | [] => none
  | flag :: rest =>
    match run flag with
    | Except.error _ => tryFlags run rest
    | Except.ok (rc, out) =>
      if rc = 0 then
        match extract_version (pyStrip out) with
        | some v => if v = "" then tryFlags run rest else some v
        | none => tryFlags run rest
      else tryFlags run rest

/-- Embedding of `DetectionStrategy.get_version` (lines 30-68).  `run`
maps a flag to the `(returncode, decoded stdout)` of spawning the
executable with that flag (`Except.error` = the spawn raised).  The
alternate flags are attempted only when the lowered tool name contains
"claude" (line 45). -/
def get_version (run : String → Except String (Int × String)) (tool_name : String) :
    Option String :=
  match run "--version" with
  | Except.error _ => none
  | Except.ok (rc, out) =>
    if rc = 0 then extract_version (pyStrip out)
    else if containsSub (pyLower tool_name) "claude" then
      tryFlags run ["-V", "version", "info"]
    else none

/-- Per-flag version outcome: the version obtained from one flag when its
spawn succeeds with exit code 0 and the output yields a truthy version. -/
def flagVersion (run : String → Except String (Int × String)) (flag : String) :
    Option String :=
  match run flag with
  | Except.error _ => none
  | Except.ok (rc, out) =>
    if rc = 0 then
      match extract_version (pyStrip out) with
      | some v => if v = "" then none else some v
      | none => none
    else none

/-! ## CommandExecutor (command_execution_service.py, lines 145-346) -/

/-- One record of the execution history, as assembled on lines 226-233. -/
structure HistoryRecord where
  tool : String
  command : String
  success : Bool
  return_code : Int
  execution_time_ms : Nat
  timestamp : Nat
deriving DecidableEq

/-- Modelled from the spec: `CommandExecutor._store_execution_history` is
called on line 226 of command_execution_service.py but is not defined
anywhere under src; only its caller and the `_execution_history` /
`_max_history_size = 100` declarations (lines 151-152) exist.  The spec
describes the store as a fixed-capacity ring, oldest evicted first,
capacity 100 (spec sections 3 and 8). -/
def storeExecutionHistory (maxSize : Nat) (h : List HistoryRecord)
    (r : HistoryRecord) : List HistoryRecord :=
  let h2 := h ++ [r]
  if h2.length > maxSize then h2.drop (h2.length - maxSize) else h2

/-- Python slice `l[start:]` for an integer `start` (negative values
count from the end and clamp at the left edge). -/
def pySliceFrom {α : Type} (l : List α) (start : Int) : List α :=
  if start < 0 then l.drop (Int.toNat (l.length + start)) else l.drop start.toNat

/-- Embedding of `CommandExecutor.get_execution_history` (lines 339-341):
`self._execution_history[-limit:]`. -/
def get_execution_history (history : List HistoryRecord) (limit : Int) :
    List HistoryRecord :=
  pySliceFrom history (-limit)

/-- Python `str(e)` of the `TypeError` raised by the process creation of
lines 200-210: `asyncio.create_subprocess_exec` forwards the unknown
`timeout` keyword through `loop.subprocess_exec` down to
`subprocess.Popen`, which rejects it, on every call (CPython 3.10+
wording; no claim depends on the exact text). -/
def spawnTypeErrorMsg : String :=
  "Popen.__init__() got an unexpected keyword argument \x27timeout\x27"

/-- Python exceptions surfaced by the executor body.  The executor can
only raise from its `finally` block: reading the local `process_id`
before assignment is an `UnboundLocalError`. -/
inductive PyErr where
  | unboundLocal : PyErr
deriving DecidableEq

/-- Python `str(e)` text of the executor's exception (CPython 3.11+
wording for an unbound local named `process_id`). -/
def pyStr : PyErr → String
  | PyErr.unboundLocal =>
    "cannot access local variable \x27process_id\x27 where it is not associated with a value"

/-- Mutable executor state: the running-process registry
`_running_processes` and the `_execution_history` list. -/
structure ExecState where
  running : List (String × Nat)
  history : List HistoryRecord
deriving DecidableEq

/-- Observable side effects of one `execute_command` call, in order. -/
inductive ExecAction where
  | spawned : Nat → ExecAction
  | killed : Nat → ExecAction
  | waited : Nat → ExecAction
  | stored : ExecAction
deriving DecidableEq

/-- Environment of oracles for the executor: the filesystem resolver used
by validation, the detection service (`get_tool_status` already catches
internally and returns `None` on failure, lines 158-160), `shlex.split`
(which may raise `ValueError`), and the abstract clock readings.
Process creation needs no oracle: the call of lines 200-210 always
raises `TypeError` (see `spawnTypeErrorMsg`), so no subprocess is ever
created by this program. -/
structure ExecEnv where
  resolve : String → Except String String
  toolStatus : ToolType → Option DetectedTool
  shlexSplit : String → Except String (List String)
  elapsed : Nat
  startTime : Nat

/-- Embedding of `CommandExecutor._build_command_parts` (lines 278-295):
base command from tool metadata, `shlex.split` of a non-empty command,
and the fallback `[tool_type.value, command]` when splitting raises. -/
def build_command_parts (split : String → Except String (List String))
    (tool : DetectedTool) (command : String) : List String :=
  let base := (lookupAssoc "command" tool.metadata).getD tool.tool_type.value
  if pyStrip command = "" then [base]
  else
    match split command with
    | Except.ok parts => base :: parts
    | Except.error _ => [tool.tool_type.value, command]

/-- Response returned on validation failure (lines 174-180). -/
def validationFailureResponse (elapsed : Nat) (errs : List String) : ExecuteResponse :=
  ⟨false, none, some (String.intercalate "\n" errs), -1, elapsed,
   some ("Command validation failed: " ++ String.intercalate "; " errs)⟩

/-- Response returned when the tool is unavailable (lines 188-193). -/
def toolUnavailableResponse (elapsed : Nat) (tt : ToolType) : ExecuteResponse :=
  ⟨false, none, none, -1, elapsed,
   some ("Tool " ++ tt.value ++ " is not available")⟩

/-- Body of `CommandExecutor.execute_command` (the `try`/`except` of
lines 166-271), before the `finally` block runs.  Returns the body's
outcome, the final value of the local variable `process_id` (`none` =
never assigned), the state after the body, and the action trace.
Process creation (lines 200-210) passes `timeout=request.timeout_seconds`
to `asyncio.create_subprocess_exec`, an argument `subprocess.Popen`
rejects, so it raises `TypeError` before any process exists; the
`except Exception` of line 261 shapes it into a "Command execution
failed" response and `process_id` stays unassigned.  Lines 212-259
(handle registration, communicate, history store, the `TimeoutError`
branch) are consequently unreachable and have no behaviour to embed. -/
def executeBody (env : ExecEnv) (req : ExecuteRequest) (st : ExecState) :
    Except PyErr ExecuteResponse × Option String × ExecState × List ExecAction :=
  let vr := validate_command env.resolve req.command req.working_directory
  if ¬ vr.valid then
    (Except.ok (validationFailureResponse env.elapsed vr.errors), none, st, [])
  else
    match env.toolStatus req.tool_type with
    | none => (Except.ok (toolUnavailableResponse env.elapsed req.tool_type), none, st, [])
    | some tool =>
      if ¬ tool.status = ToolStatus.available then
        (Except.ok (toolUnavailableResponse env.elapsed req.tool_type), none, st, [])
      else
        let _parts := build_command_parts env.shlexSplit tool req.command
        (Except.ok ⟨false, none, none, -1, env.elapsed,
           some ("Command execution failed: " ++ spawnTypeErrorMsg)⟩, none, st, [])

/-- Embedding of `CommandExecutor.execute_command` (lines 154-276)
including the `finally` block of lines 273-276.  The `finally` block
evaluates `process_id`; on every path that never assigned it —
validation failure, unavailable tool, and the `TypeError` of process
creation, i.e. every path of this program — this raises
`UnboundLocalError`, which replaces the value being returned. -/
def executor_execute_command (env : ExecEnv) (req : ExecuteRequest) (st : ExecState) :
    Except PyErr ExecuteResponse × ExecState × List ExecAction :=
  let r := executeBody env req st
  match r.2.1 with
  | none => (Except.error PyErr.unboundLocal, r.2.2.1, r.2.2.2)
  | some pidStr =>
    (r.1, ⟨eraseAssoc pidStr r.2.2.1.running, r.2.2.1.history⟩, r.2.2.2)

/-- Embedding of `CommandExecutionService.execute_command` (lines
370-393) with the lazy initialization of lines 357-368: a first use
clears the history; an exception escaping the executor is caught and
shaped into a "Service error" response with zero elapsed time. -/
def service_execute_command (env : ExecEnv) (req : ExecuteRequest) (st : ExecState)
    (initialized : Bool) : ExecuteResponse × ExecState × List ExecAction × Bool :=
  let st0 : ExecState := if initialized then st else ⟨st.running, []⟩
  match executor_execute_command env req st0 with
  | (Except.ok r, st2, tr) => (r, st2, tr, true)
  | (Except.error e, st2, tr) =>
    (⟨false, none, none, -1, 0, some ("Service error: " ++ pyStr e)⟩, st2, tr, true)

/-! ## Auxiliary predicates and concrete fixtures used by the claims -/

/-- Recognizer for the deny-list error messages produced by
`validate_command`. -/
def isBlockedMsg (m : String) : Bool :=
  BLOCKED_COMMANDS.any fun b => m == "Blocked command detected: " ++ b

/-- Acceptance of one extracted file-path token by the file-path loop:
its resolution succeeds, stays under the working directory, and its
lowered suffix is on the extension allow-list. -/
def filePathTokenOk (resolve : String → Except String String) (dir f : String) : Bool :=
  match resolve f with
  | Except.error _ => false
  | Except.ok p => pyStartsWith p dir && ALLOWED_EXTENSIONS.contains (pyLower (pySuffix f))

/-- Resolver fixture for the C2 counterexample: the working directory and
the single extracted token resolve, and the token stays inside the
directory. -/
def c2cexResolve : String → Except String String := fun s =>
  if s = "/tmp" then Except.ok "/tmp"
  else if s = "notes.rst" then Except.ok "/tmp/notes.rst"
  else Except.error "resolution failed"

/-- Resolver fixture for the C2 witness. -/
def c2witResolve : String → Except String String := fun s =>
  if s = "/tmp" then Except.ok "/tmp"
  else if s = "notes.txt" then Except.ok "/tmp/notes.txt"
  else Except.error "resolution failed"

/-- Environment fixture for the C1 evaluation: no tool is available and
every oracle fails; none of them is reached on the validation-failure
path. -/
def c1env : ExecEnv :=
  ⟨fun _ => Except.error "unused", fun _ => none, fun _ => Except.error "unused", 0, 0⟩

/-- Request fixture for the C1 evaluation: an empty command, which fails
validation. -/
def c1req : ExecuteRequest := ⟨ToolType.claude_code, "", 30, none⟩

/-- An available tool fixture. -/
def fixtureTool : DetectedTool :=
  ⟨"Claude Code", ToolType.claude_code, ToolStatus.available,
   some "/usr/local/bin/claude", some "1.0.0", [("command", "claude")]⟩

/-- Environment fixture for the C4 evaluation: the requested tool is
available and the command splits cleanly, so the request reaches
process creation. -/
def c4env : ExecEnv :=
  ⟨fun _ => Except.error "unused", fun _ => some fixtureTool,
   fun _ => Except.ok ["sleep", "5"], 0, 0⟩

/-- Request fixture for the C4 evaluation: the spec's own timeout
scenario, a 1-second timeout against a command that sleeps 5 seconds. -/
def c4req : ExecuteRequest := ⟨ToolType.claude_code, "sleep 5", 1, none⟩

/-- History-record fixture. -/
def fixtureRecord : HistoryRecord := ⟨"claude_code", "x", true, 0, 1, 1⟩

/-- History fixture for the C10 witness. -/
def c10hist : List HistoryRecord :=
  [⟨"claude_code", "a", true, 0, 1, 1⟩,
   ⟨"claude_code", "b", true, 0, 1, 2⟩,
   ⟨"claude_code", "c", false, 2, 1, 3⟩]

/-- Probe-oracle fixture for the C6 witness: detection always succeeds
with `fixtureTool`. -/
def c6detect : ToolType → Except String DetectedTool := fun _ => Except.ok fixtureTool

/-- Cache state after the first C6 call. -/
def c6state : DetectionCache := ⟨[("claude_code", fixtureTool)], some 0⟩

/-- Probe-oracle fixture for the C7 witness: detecting the Gemini CLI
raises, the other tools succeed. -/
def c7detect : ToolType → Except String DetectedTool := fun tt =>
  if tt = ToolType.gemini_cli then Except.error "probe failed" else Except.ok fixtureTool

/-- Request fixture for the C7 witness: all three tools, no forced
refresh. -/
def c7req : DetectionRequest :=
  ⟨[ToolType.claude_code, ToolType.gemini_cli, ToolType.qwen_code], false⟩

/-- Run-oracle fixture for the C9 counterexample: `--version` exits 1 and
`-V` would yield a version. -/
def c9cexRun : String → Except String (Int × String) := fun f =>
  if f = "--version" then Except.ok (1, "")
  else if f = "-V" then Except.ok (0, "v1.2.3")
  else Except.error "not run"

/-- Run-oracle fixture for the C9 witness: `--version` exits 1, `-V`
raises, `version` succeeds. -/
def c9run : String → Except String (Int × String) := fun f =>
  if f = "--version" then Except.ok (1, "junk")
  else if f = "-V" then Except.error "boom"
  else if f = "version" then Except.ok (0, "tool version 2.3.4")
  else Except.error "not run"

/-! ## General lemmas -/

/-- A non-nil list is not `isEmpty`. -/
theorem isEmpty_false_of_ne_nil {α : Type} {l : List α} (h : l ≠ []) :
    l.isEmpty = false := by
  cases l with
  | nil => exact absurd rfl h
  | cons a t => rfl

/-- Shape of `validate_command` on a command that is not
whitespace-only. -/
theorem validate_command_eq (resolve : String → Except String String)
    (cmd : String) (wd : Option String) (h : ¬ pyStrip cmd = "") :
    validate_command resolve cmd wd =
      ⟨(lengthErrors cmd ++ blockedErrors cmd ++ filePathErrors resolve cmd wd).isEmpty,
       lengthErrors cmd ++ blockedErrors cmd ++ filePathErrors resolve cmd wd,
       patternWarnings cmd ++ quoteWarnings cmd⟩ := by
  unfold validate_command
  rw [if_neg h]

/-- Lowercasing fixes whitespace characters. -/
theorem pyLowerChar_of_space {c : Char} (h : pyIsSpace c = true) :
    pyLowerChar c = c := by
  have h2 : c = ' ' ∨ c = '\t' ∨ c = '\n' ∨ c = '\r' ∨ c = '\x0b' ∨ c = '\x0c' := by
    revert h
    unfold pyIsSpace
    intro h
    simp only [Bool.or_eq_true, decide_eq_true_eq] at h
    tauto
  rcases h2 with h | h | h | h | h | h <;> subst h <;> decide

/-- A list whose characters are all whitespace strips to nil. -/
theorem stripList_eq_nil_of_all {l : List Char} (h : ∀ c ∈ l, pyIsSpace c = true) :
    stripList l = [] := by
  unfold stripList
  have h1 : l.dropWhile pyIsSpace = [] := List.dropWhile_eq_nil_iff.mpr h
  rw [h1]
  rfl

/-- A list that strips to nil consists of whitespace only. -/
theorem all_space_of_stripList_eq_nil {l : List Char} (h : stripList l = []) :
    ∀ c ∈ l, pyIsSpace c = true := by
  unfold stripList at h
  rcases h1 : l.dropWhile pyIsSpace with _ | ⟨a, t⟩
  · exact List.dropWhile_eq_nil_iff.mp h1
  · exfalso
    rw [h1] at h
    have h2 : (a :: t).reverse.dropWhile pyIsSpace = [] := by
      have := congrArg List.reverse h
      simpa using this
    have h3 : ∀ c ∈ (a :: t).reverse, pyIsSpace c = true :=
      List.dropWhile_eq_nil_iff.mp h2
    have h4 : pyIsSpace a = true := h3 a (by simp)
    have h5 : pyIsSpace a = false := by
      have := List.head?_dropWhile_not pyIsSpace l
      rw [h1] at this
      simpa using this
    rw [h4] at h5
    exact Bool.true_eq_false.mp h5

/-- A whitespace-only command is still whitespace-only after
normalization, so it cannot contain a non-empty fragment. -/
theorem pyNormalized_eq_empty {cmd : String} (h : pyStrip cmd = "") :
    pyNormalized cmd = "" := by
  have hl : stripList cmd.data = [] := congrArg String.data h
  have hall : ∀ c ∈ cmd.data, pyIsSpace c = true := all_space_of_stripList_eq_nil hl
  have hmap : cmd.data.map pyLowerChar = cmd.data := by
    have hgen : ∀ l : List Char, (∀ c ∈ l, pyIsSpace c = true) → l.map pyLowerChar = l := by
      intro l
      induction l with
      | nil => intro _; rfl
      | cons a t ih =>
        intro hl2
        simp only [List.map_cons]
        rw [pyLowerChar_of_space (hl2 a (by simp)), ih (fun c hc => hl2 c (by simp [hc]))]
    exact hgen cmd.data hall
  unfold pyNormalized pyStrip pyLower
  simp only [hmap]
  rw [stripList_eq_nil_of_all hall]

/-- Containment of a string in the empty string forces it empty. -/
theorem containsSub_empty (sub : String) :
    containsSub "" sub = sub.data.isEmpty := rfl

/-- A command matching a non-empty deny-list fragment is not
whitespace-only. -/
theorem strip_ne_empty_of_match {cmd b : String} (hb : b ∈ BLOCKED_COMMANDS)
    (hm : containsSub (pyNormalized cmd) (pyLower b) = true) :
    ¬ pyStrip cmd = "" := by
  intro h
  rw [pyNormalized_eq_empty h] at hm
  rw [containsSub_empty] at hm
  have hne : ∀ b2 ∈ BLOCKED_COMMANDS, (pyLower b2).data.isEmpty = false := by decide
  rw [hne b hb] at hm
  exact Bool.false_ne_true hm

/-! ## Claim C1 -/

/-- C1: on a request whose command fails validation the claim expects
`CommandExecutor.execute_command` to return a validation-failure
response; instead, the `finally` block of lines 273-276 evaluates the
local `process_id`, which was never assigned on this path, so the call
raises `UnboundLocalError` (no process is spawned), and
`CommandExecutionService.execute_command` surfaces it as a
"Service error: …" response with `stderr = None`. -/
theorem C1_validation_failure_unbound_local :
    (validate_command c1env.resolve c1req.command c1req.working_directory).valid = false ∧
    executor_execute_command c1env c1req ⟨[], []⟩
      = (Except.error PyErr.unboundLocal, ⟨[], []⟩, []) ∧
    (service_execute_command c1env c1req ⟨[], []⟩ true).1
      = ⟨false, none, none, -1, 0, some ("Service error: " ++ pyStr PyErr.unboundLocal)⟩ := by
  refine ⟨rfl, rfl, rfl⟩

/-! ## Claim C8 -/

/-- C8: for every command string, optional working directory and
filesystem-resolution behaviour (including one that always raises),
`validate_command` returns a structured verdict whose `valid` flag holds
exactly when the error list is empty.  The embedding makes the only
exception-prone step explicit: every failure of the resolver is absorbed
inside `validate_file_paths` (the blanket `except` of lines 140-142), so
the function is total and never propagates an exception. -/
theorem C8_always_structured_verdict (resolve : String → Except String String)
    (cmd : String) (wd : Option String) :
    (validate_command resolve cmd wd).valid
      = (validate_command resolve cmd wd).errors.isEmpty := by
  unfold validate_command
  split
  · rfl
  · rfl

/-! ## Claim C10 -/

/-- C10: `get_execution_history` with `limit = 0` returns the whole
stored history (the Python slice `history[-0:]` is `history[0:]`), and
with a positive limit returns at most `limit` records, a suffix of the
stored history (newest records are appended last). -/
theorem C10_history_limit_semantics (h : List HistoryRecord) (limit : Int) :
    (limit = 0 → get_execution_history h limit = h) ∧
    (0 < limit →
      (get_execution_history h limit).length ≤ limit.toNat ∧
      get_execution_history h limit <:+ h) := by
  constructor
  · intro h0
    subst h0
    simp [get_execution_history, pySliceFrom]
  · intro hpos
    have hneg : (-limit : Int) < 0 := by omega
    constructor
    · unfold get_execution_history pySliceFrom
      rw [if_pos hneg]
      rw [List.length_drop]
      omega
    · unfold get_execution_history pySliceFrom
      rw [if_pos hneg]
      exact List.drop_suffix _ _

/-- Witness for C10 at a concrete three-record history. -/
theorem C10_witness :
    get_execution_history c10hist 0 = c10hist ∧
    (get_execution_history c10hist 2).length ≤ (2 : Int).toNat ∧
    get_execution_history c10hist 2 <:+ c10hist :=
  ⟨(C10_history_limit_semantics c10hist 0).1 rfl,
   ((C10_history_limit_semantics c10hist 2).2 (by decide)).1,
   ((C10_history_limit_semantics c10hist 2).2 (by decide)).2⟩

/-! ## Claim C3 -/

/-- Every deny-list message satisfies the recognizer. -/
theorem isBlockedMsg_of_mem {b : String} (hb : b ∈ BLOCKED_COMMANDS) :
    isBlockedMsg ("Blocked command detected: " ++ b) = true := by
  unfold isBlockedMsg
  rw [List.any_eq_true]
  exact ⟨b, hb, by rw [beq_iff_eq]⟩

/-- The length error never satisfies the deny-list recognizer. -/
theorem countP_isBlockedMsg_lengthErrors (cmd : String) :
    (lengthErrors cmd).countP isBlockedMsg = 0 := by
  unfold lengthErrors
  split
  · decide
  · rfl

/-- The file-path error never satisfies the deny-list recognizer. -/
theorem countP_isBlockedMsg_filePathErrors (resolve : String → Except String String)
    (cmd : String) (wd : Option String) :
    (filePathErrors resolve cmd wd).countP isBlockedMsg = 0 := by
  cases wd with
  | none => rfl
  | some w =>
    simp only [filePathErrors]
    by_cases hw : w = ""
    · rw [if_pos hw]
      rfl
    · rw [if_neg hw]
      by_cases hv : validate_file_paths resolve cmd w = true
      · rw [if_pos hv]
        rfl
      · rw [if_neg hv]
        decide

/-- Deny-list messages are counted once per matching fragment. -/
theorem countP_isBlockedMsg_blockedErrors (cmd : String) :
    (blockedErrors cmd).countP isBlockedMsg
      = BLOCKED_COMMANDS.countP fun b => containsSub (pyNormalized cmd) (pyLower b) := by
  unfold blockedErrors
  rw [List.countP_map]
  conv_rhs => rw [List.countP_eq_length_filter]
  exact List.countP_eq_length.mpr
    (fun a ha => isBlockedMsg_of_mem (List.mem_of_mem_filter ha))

/-- C3: a command containing a deny-listed fragment (matched
case-insensitively against the lowered, stripped command, as on source
lines 81-84) is invalid, its error list is non-empty, it carries exactly
one deny-list error per matching fragment, and each matching fragment
contributes its own error message. -/
theorem C3_blocked_fragment_rejected (resolve : String → Except String String)
    (cmd : String) (wd : Option String) (b : String)
    (hb : b ∈ BLOCKED_COMMANDS)
    (hm : containsSub (pyNormalized cmd) (pyLower b) = true) :
    (validate_command resolve cmd wd).valid = false ∧
    (validate_command resolve cmd wd).errors ≠ [] ∧
    (validate_command resolve cmd wd).errors.countP isBlockedMsg
      = BLOCKED_COMMANDS.countP (fun b2 => containsSub (pyNormalized cmd) (pyLower b2)) ∧
    (∀ b2 ∈ BLOCKED_COMMANDS, containsSub (pyNormalized cmd) (pyLower b2) = true →
      ("Blocked command detected: " ++ b2) ∈ (validate_command resolve cmd wd).errors) := by
  have hne := strip_ne_empty_of_match hb hm
  rw [validate_command_eq resolve cmd wd hne]
  have hmem : "Blocked command detected: " ++ b ∈ blockedErrors cmd := by
    unfold blockedErrors
    exact List.mem_map_of_mem _ (List.mem_filter.mpr ⟨hb, hm⟩)
  have herrne : lengthErrors cmd ++ blockedErrors cmd ++ filePathErrors resolve cmd wd ≠ [] := by
    intro hnil
    rw [List.append_eq_nil, List.append_eq_nil] at hnil
    rw [hnil.1.2] at hmem
    exact (List.not_mem_nil _) hmem
  refine ⟨?_, herrne, ?_, ?_⟩
  · exact isEmpty_false_of_ne_nil herrne
  · rw [List.countP_append, List.countP_append]
    rw [countP_isBlockedMsg_lengthErrors, countP_isBlockedMsg_blockedErrors,
      countP_isBlockedMsg_filePathErrors]
    omega
  · intro b2 hb2 hm2
    have : "Blocked command detected: " ++ b2 ∈ blockedErrors cmd := by
      unfold blockedErrors
      exact List.mem_map_of_mem _ (List.mem_filter.mpr ⟨hb2, hm2⟩)
    simp only [List.mem_append]
    exact Or.inl (Or.inr this)

/-- Witness for C3: `sudo rm -rf /tmp/x` matches the fragments
`rm -rf /` and `sudo rm -rf`; validation reports exactly two deny-list
errors and is invalid. -/
theorem C3_witness :
    ("rm -rf /" ∈ BLOCKED_COMMANDS) ∧
    containsSub (pyNormalized "sudo rm -rf /tmp/x") (pyLower "rm -rf /") = true ∧
    BLOCKED_COMMANDS.countP
      (fun b2 => containsSub (pyNormalized "sudo rm -rf /tmp/x") (pyLower b2)) = 2 ∧
    (validate_command (fun _ => Except.error "unused") "sudo rm -rf /tmp/x" none).valid
      = false ∧
    (validate_command (fun _ => Except.error "unused") "sudo rm -rf /tmp/x" none).errors.countP
      isBlockedMsg = 2 := by
  refine ⟨by decide, by decide, by decide, ?_, ?_⟩
  · exact (C3_blocked_fragment_rejected (fun _ => Except.error "unused")
      "sudo rm -rf /tmp/x" none "rm -rf /" (by decide) (by decide)).1
  · rw [(C3_blocked_fragment_rejected (fun _ => Except.error "unused")
      "sudo rm -rf /tmp/x" none "rm -rf /" (by decide) (by decide)).2.2.1]
    decide

/-! ## Claim C2 -/

/-- The file-path loop accepts a token list whose members all pass the
per-token check. -/
theorem vfpLoop_of_all (resolve : String → Except String String) (dir : String)
    (fs : List String) (h : ∀ f ∈ fs, filePathTokenOk resolve dir f = true) :
    vfpLoop resolve dir fs = true := by
  induction fs with
  | nil => rfl
  | cons f rest ih =>
    have hf := h f (by simp)
    unfold filePathTokenOk at hf
    rcases hres : resolve f with e | p
    · rw [hres] at hf
      exact absurd hf (by simp)
    · rw [hres] at hf
      rw [Bool.and_eq_true] at hf
      simp only [vfpLoop, hres]
      rw [if_neg (fun hc => hc hf.1), if_neg (fun hc => hc hf.2)]
      exact ih (fun g hg => h g (by simp [hg]))

/-- C2 (amended): a command that is non-empty after stripping, of length
at most 1000, containing no deny-listed fragment and — when a non-empty
working directory is supplied — whose resolved working directory and
extracted file-path tokens all resolve successfully under that directory
with allow-listed extensions, validates with `valid = true` (warnings
may be non-empty). -/
theorem C2_valid_when_benign (resolve : String → Except String String)
    (cmd : String) (wd : Option String)
    (h1 : ¬ pyStrip cmd = "")
    (h2 : cmd.length ≤ 1000)
    (h3 : ∀ b ∈ BLOCKED_COMMANDS, containsSub (pyNormalized cmd) (pyLower b) = false)
    (h4 : ∀ w, wd = some w → ¬ w = "" →
      ∃ dir, resolve w = Except.ok dir ∧
        ∀ f ∈ extractFilePaths cmd, filePathTokenOk resolve dir f = true) :
    (validate_command resolve cmd wd).valid = true := by
  rw [validate_command_eq resolve cmd wd h1]
  have hlen : lengthErrors cmd = [] := by
    unfold lengthErrors
    rw [if_neg (by omega)]
  have hblocked : blockedErrors cmd = [] := by
    unfold blockedErrors
    rw [List.filter_eq_nil_iff.mpr (fun b hb => by simp [h3 b hb])]
    rfl
  have hfile : filePathErrors resolve cmd wd = [] := by
    cases wd with
    | none => rfl
    | some w =>
      simp only [filePathErrors]
      by_cases hw : w = ""
      · rw [if_pos hw]
      · rw [if_neg hw]
        obtain ⟨dir, hres, hall⟩ := h4 w rfl hw
        have : validate_file_paths resolve cmd w = true := by
          unfold validate_file_paths
          rw [hres]
          exact vfpLoop_of_all resolve dir _ hall
        rw [if_pos this]
  rw [hlen, hblocked, hfile]
  rfl

/-- Counterexample for C2 as stated: `cat notes.rst` is 13 characters
long, matches no deny-listed fragment, and its only file-path token
resolves inside the supplied working directory, yet validation fails:
the token's `.rst` suffix is outside the extension allow-list, so the
loop reaches the unbound name `warnings` (line 136), the resulting
`NameError` is swallowed by the blanket `except` and
`_validate_file_paths` returns `False`. -/
theorem C2_counterexample :
    ("cat notes.rst" : String).length ≤ 1000 ∧
    (∀ b ∈ BLOCKED_COMMANDS,
      containsSub (pyNormalized "cat notes.rst") (pyLower b) = false) ∧
    extractFilePaths "cat notes.rst" = ["notes.rst"] ∧
    c2cexResolve "notes.rst" = Except.ok "/tmp/notes.rst" ∧
    pyStartsWith "/tmp/notes.rst" "/tmp" = true ∧
    validate_command c2cexResolve "cat notes.rst" (some "/tmp")
      = ⟨false, ["Unsafe file operations detected"], []⟩ := by
  refine ⟨by decide, by decide, by decide, rfl, by decide, by decide⟩

/-- Witness for C2 at `cat notes.txt` under `/tmp` with a resolver that
keeps the token inside the directory. -/
theorem C2_witness :
    (validate_command c2witResolve "cat notes.txt" (some "/tmp")).valid = true := by
  refine C2_valid_when_benign c2witResolve "cat notes.txt" (some "/tmp")
    (by decide) (by decide) (by decide) ?_
  intro w hw hne
  cases hw
  exact ⟨"/tmp", rfl, by decide⟩

/-! ## Claim C5 -/

/-- One ring store never leaves more than `c` records. -/
theorem storeExecutionHistory_length_le (c : Nat) (h : List HistoryRecord)
    (r : HistoryRecord) : (storeExecutionHistory c h r).length ≤ c := by
  unfold storeExecutionHistory
  by_cases hl : (h ++ [r]).length > c
  · rw [if_pos hl]
    rw [List.length_drop]
    omega
  · rw [if_neg hl]
    omega

/-- Folding the ring store from the empty history never exceeds the
capacity. -/
theorem foldl_store_length_le (c : Nat) (l : List HistoryRecord) :
    (l.foldl (storeExecutionHistory c) []).length ≤ c := by
  rcases List.eq_nil_or_concat l with h | ⟨l2, a, h⟩
  · subst h
    simp
  · subst h
    rw [List.concat_eq_append, List.foldl_concat]
    exact storeExecutionHistory_length_le c _ a

/-- One ring store on the last-`c` suffix of `l` yields the last-`c`
suffix of `l ++ [r]`. -/
theorem storeExecutionHistory_drop (c : Nat) (l : List HistoryRecord)
    (r : HistoryRecord) :
    storeExecutionHistory c (l.drop (l.length - c)) r
      = (l ++ [r]).drop ((l ++ [r]).length - c) := by
  unfold storeExecutionHistory
  by_cases hc : c ≤ l.length
  · have hlen : (l.drop (l.length - c)).length = c := by
      rw [List.length_drop]
      omega
    have hgt : (l.drop (l.length - c) ++ [r]).length > c := by
      rw [List.length_append, hlen]
      simp
    rw [if_pos hgt]
    rw [List.length_append, hlen]
    simp only [List.length_append, List.length_cons, List.length_nil]
    rw [List.drop_append_eq_append_drop, List.drop_append_eq_append_drop]
    rw [List.drop_drop, hlen]
    congr 1
    · congr 1
      omega
    · congr 1
      omega
  · have hle : ¬ (l.drop (l.length - c) ++ [r]).length > c := by
      rw [List.length_append, List.length_drop]
      simp
      omega
    rw [if_neg hle]
    rw [show l.length - c = 0 by omega, List.drop_zero]
    rw [show (l ++ [r]).length - c = 0 by rw [List.length_append]; simp; omega]
    rw [List.drop_zero]

/-- Folding the ring store keeps exactly the last `c` records. -/
theorem foldl_store_eq_drop (c : Nat) (rs l : List HistoryRecord) :
    rs.foldl (storeExecutionHistory c) (l.drop (l.length - c))
      = (l ++ rs).drop ((l ++ rs).length - c) := by
  induction rs generalizing l with
  | nil => simp
  | cons r rest ih =>
    rw [List.foldl_cons, storeExecutionHistory_drop c l r, ih (l ++ [r])]
    simp

/-- C5 (spec-modelled store): the history ring built by
`storeExecutionHistory` with capacity 100 never holds more than 100
records at any prefix of the execution sequence, and after 150 stores
`get_execution_history` with limit 1000 returns exactly the 100 most
recent records. -/
theorem C5_history_ring_capacity (rs : List HistoryRecord) :
    (∀ pre : List HistoryRecord, pre <+: rs →
      (pre.foldl (storeExecutionHistory 100) []).length ≤ 100) ∧
    (rs.length = 150 →
      get_execution_history (rs.foldl (storeExecutionHistory 100) []) 1000
        = rs.drop 50) := by
  constructor
  · intro pre _
    exact foldl_store_length_le 100 pre
  · intro h150
    have hfold : rs.foldl (storeExecutionHistory 100) [] = rs.drop (rs.length - 100) := by
      have h := foldl_store_eq_drop 100 rs []
      simpa using h
    rw [hfold, h150]
    show get_execution_history (rs.drop 50) 1000 = rs.drop 50
    unfold get_execution_history pySliceFrom
    rw [if_pos (by norm_num)]
    rw [List.length_drop, h150]
    norm_num
    rw [show (50 : Nat) + (-900 : Int).toNat = 50 by omega]

/-- Witness for C5: 150 identical records folded through the ring leave
100, and the limit-1000 query returns the last 100. -/
theorem C5_witness :
    List.replicate 120 fixtureRecord <+: List.replicate 150 fixtureRecord ∧
    ((List.replicate 120 fixtureRecord).foldl (storeExecutionHistory 100) []).length ≤ 100 ∧
    get_execution_history
      ((List.replicate 150 fixtureRecord).foldl (storeExecutionHistory 100) []) 1000
      = (List.replicate 150 fixtureRecord).drop 50 := by
  have hpre : List.replicate 120 fixtureRecord <+: List.replicate 150 fixtureRecord :=
    ⟨List.replicate 30 fixtureRecord, by rw [← List.replicate_add]⟩
  exact ⟨hpre,
    (C5_history_ring_capacity (List.replicate 150 fixtureRecord)).1 _ hpre,
    (C5_history_ring_capacity (List.replicate 150 fixtureRecord)).2 (by simp)⟩

/-! ## Claim C4 -/

/-- C4: the claim (and spec 4.4 step 7 with the testable property of
spec section 8) expects an execution exceeding its timeout to have its
process killed, awaited and unregistered and to yield the "timed out
after N seconds" result; but the process creation of lines 200-210
passes `timeout=` through `create_subprocess_exec` to
`subprocess.Popen`, which rejects it with `TypeError` on every call, so
no process ever exists and the timeout branch of lines 244-259 is
unreachable.  Evaluated at the spec's own scenario (timeout 1 second
against `sleep 5`, tool available, validation passing), the executor
raises `UnboundLocalError` from its `finally` block (no process was
spawned, nothing is killed) and the service reports "Service error: …"
— not the timed-out response the claim describes. -/
theorem C4_timeout_branch_unreachable :
    (validate_command c4env.resolve c4req.command c4req.working_directory).valid = true ∧
    c4env.toolStatus c4req.tool_type = some fixtureTool ∧
    fixtureTool.status = ToolStatus.available ∧
    executor_execute_command c4env c4req ⟨[], []⟩
      = (Except.error PyErr.unboundLocal, ⟨[], []⟩, []) ∧
    (service_execute_command c4env c4req ⟨[], []⟩ true).1
      = ⟨false, none, none, -1, 0, some ("Service error: " ++ pyStr PyErr.unboundLocal)⟩ ∧
    ¬ (service_execute_command c4env c4req ⟨[], []⟩ true).1.error_message
      = some ("Command timed out after " ++ toString c4req.timeout_seconds ++ " seconds") := by
  refine ⟨by decide, rfl, rfl, rfl, rfl, by decide⟩

/-! ## Claim C6 -/

/-- A freshly inserted key is found with its value. -/
theorem lookupAssoc_insertAssoc_self {β : Type} (k : String) (v : β)
    (l : List (String × β)) : lookupAssoc k (insertAssoc k v l) = some v := by
  induction l with
  | nil =>
    unfold insertAssoc lookupAssoc
    rw [if_pos rfl]
  | cons p rest ih =>
    obtain ⟨k2, v2⟩ := p
    unfold insertAssoc
    by_cases hk : k2 = k
    · rw [if_pos hk]
      unfold lookupAssoc
      rw [if_pos rfl]
    · rw [if_neg hk]
      unfold lookupAssoc
      rw [if_neg hk]
      exact ih

/-- A store with a found key is non-empty. -/
theorem isEmpty_false_of_lookupAssoc {β : Type} {k : String}
    {l : List (String × β)} {v : β} (h : lookupAssoc k l = some v) :
    l.isEmpty = false := by
  cases l with
  | nil => exact absurd h (by simp [lookupAssoc])
  | cons p rest => rfl

/-- Validity of a cache with a known timestamp, a non-empty store and an
age below the TTL. -/
theorem is_cache_valid_of (now ts : Nat) (s : DetectionCache)
    (h2 : s.timestamp = some ts) (hne : s.cache.isEmpty = false)
    (h3 : now - ts < cacheTTLSeconds) : is_cache_valid now s = true := by
  unfold is_cache_valid
  rw [h2]
  simp [hne, h3]

/-- A `get_tool_status` call on a valid cache holding the identifier is
a pure cache hit: same value, no probing, unchanged state. -/
theorem get_tool_status_hit (detectO2 : ToolType → Except String DetectedTool)
    (now : Nat) (s : DetectionCache) (tt : ToolType) (v : DetectedTool)
    (hvld : is_cache_valid now s = true)
    (hlook : lookupAssoc tt.value s.cache = some v) :
    get_tool_status detectO2 now s tt = (some v, false, s) := by
  unfold get_tool_status
  rw [if_pos (by rw [Bool.and_eq_true]; exact ⟨hvld, by rw [hlook]; rfl⟩)]
  rw [hlook]

/-- C6: a `get_tool_status` call that returns a tool leaves the cache
holding that tool under its identifier; any later call for the same
identifier within the TTL of the cache timestamp — with no intervening
forced refresh or cache clear — returns the identical cached value
without probing, regardless of what a new probe would produce, and
leaves the state untouched. -/
theorem C6_cached_status_idempotent
    (detectO : ToolType → Except String DetectedTool) (now1 now2 : Nat)
    (s s2 : DetectionCache) (tt : ToolType) (v : DetectedTool) (p1 : Bool) (ts : Nat)
    (h1 : get_tool_status detectO now1 s tt = (some v, p1, s2))
    (h2 : s2.timestamp = some ts) (h3 : now2 - ts < cacheTTLSeconds) :
    ∀ detectO2 : ToolType → Except String DetectedTool,
      get_tool_status detectO2 now2 s2 tt = (some v, false, s2) := by
  intro detectO2
  unfold get_tool_status at h1
  split at h1
  · have hv : lookupAssoc tt.value s.cache = some v := congrArg Prod.fst h1
    have hs2 : s = s2 := congrArg (fun x => x.2.2) h1
    subst hs2
    exact get_tool_status_hit detectO2 now2 s tt v
      (is_cache_valid_of now2 ts s h2 (isEmpty_false_of_lookupAssoc hv) h3) hv
  · rcases hdet : detectO tt with e | tool
    · rw [hdet] at h1
      exact absurd (congrArg Prod.fst h1) (by simp)
    · rw [hdet] at h1
      have hv : tool = v := Option.some.inj (congrArg Prod.fst h1)
      have hs2 : (⟨insertAssoc tt.value tool s.cache, some now1⟩ : DetectionCache) = s2 :=
        congrArg (fun x => x.2.2) h1
    -- the second call hits the entry written by the first
      refine get_tool_status_hit detectO2 now2 s2 tt v
        (is_cache_valid_of now2 ts s2 h2 ?_ h3) ?_
      · rw [← hs2]
        exact isEmpty_false_of_lookupAssoc
          (lookupAssoc_insertAssoc_self tt.value tool s.cache)
      · rw [← hs2]
        rw [← hv]
        exact lookupAssoc_insertAssoc_self tt.value tool s.cache

/-- Witness for C6: a first call at time 0 populates the cache; a second
call at time 100 with a probe oracle that would fail returns the cached
tool without probing. -/
theorem C6_witness :
    get_tool_status c6detect 0 ⟨[], none⟩ ToolType.claude_code
      = (some fixtureTool, true, c6state) ∧
    get_tool_status (fun _ => Except.error "must not probe") 100 c6state
      ToolType.claude_code = (some fixtureTool, false, c6state) := by
  constructor
  · decide
  · exact C6_cached_status_idempotent c6detect 0 100 ⟨[], none⟩ c6state
      ToolType.claude_code fixtureTool true 0 (by decide) rfl (by decide)
      (fun _ => Except.error "must not probe")

/-! ## Claim C7 -/

/-- Characterization of the detection loop: every requested tool yields
exactly one entry — its detected tool on success, the error placeholder
on failure — and every failure contributes its message to the error
list. -/
theorem detectLoop_spec (detectO : ToolType → Except String DetectedTool)
    (tts : List ToolType) (tools : List DetectedTool) (errors : List String)
    (cache : List (String × DetectedTool)) :
    (detectLoop detectO tts tools errors cache).1
      = tools ++ tts.map (fun tt =>
          match detectO tt with
          | Except.ok t => t
          | Except.error e => errorPlaceholder tt e) ∧
    (detectLoop detectO tts tools errors cache).2.1
      = errors ++ tts.filterMap (fun tt =>
          match detectO tt with
          | Except.ok _ => none
          | Except.error e => some ("Error detecting " ++ tt.value ++ ": " ++ e)) := by
  induction tts generalizing tools errors cache with
  | nil => simp [detectLoop]
  | cons tt rest ih =>
    rcases hdet : detectO tt with e | t
    · simp only [detectLoop, hdet, List.map_cons, List.filterMap_cons]
      rw [(ih _ _ _).1, (ih _ _ _).2]
      simp
    · simp only [detectLoop, hdet, List.map_cons, List.filterMap_cons]
      rw [(ih _ _ _).1, (ih _ _ _).2]
      simp

/-- C7: when a batch `detect_tools` call actually probes (forced refresh
or invalid cache), every requested tool produces exactly one entry; a
tool whose detection raises is converted into an error-status
placeholder carrying the exception text in its metadata, its message is
collected into the result's error list, and every other requested tool
is still detected. -/
theorem C7_per_tool_error_isolation
    (detectO : ToolType → Except String DetectedTool) (now elapsed : Nat)
    (s : DetectionCache) (req : DetectionRequest)
    (hrun : req.force_refresh = true ∨ is_cache_valid now s = false) :
    (detect_tools detectO now elapsed s req).1.tools.length
      = req.tools_to_detect.length ∧
    (∀ i : Nat, ∀ tt : ToolType, req.tools_to_detect[i]? = some tt →
      (∀ t, detectO tt = Except.ok t →
        (detect_tools detectO now elapsed s req).1.tools[i]? = some t) ∧
      (∀ e, detectO tt = Except.error e →
        (detect_tools detectO now elapsed s req).1.tools[i]?
            = some (errorPlaceholder tt e) ∧
        (errorPlaceholder tt e).status = ToolStatus.error ∧
        (errorPlaceholder tt e).metadata = [("error", e)] ∧
        ("Error detecting " ++ tt.value ++ ": " ++ e)
          ∈ (detect_tools detectO now elapsed s req).1.errors)) := by
  have hcond : (!req.force_refresh && is_cache_valid now s) = false := by
    rcases hrun with h | h
    · rw [h]
      rfl
    · rw [h]
      simp
  have hres : (detect_tools detectO now elapsed s req).1.tools
      = req.tools_to_detect.map (fun tt =>
          match detectO tt with
          | Except.ok t => t
          | Except.error e => errorPlaceholder tt e) := by
    unfold detect_tools
    rw [if_neg (by simp [hcond])]
    exact (detectLoop_spec detectO req.tools_to_detect [] []
      (if req.force_refresh then [] else s.cache)).1
  have herr : (detect_tools detectO now elapsed s req).1.errors
      = req.tools_to_detect.filterMap (fun tt =>
          match detectO tt with
          | Except.ok _ => none
          | Except.error e => some ("Error detecting " ++ tt.value ++ ": " ++ e)) := by
    unfold detect_tools
    rw [if_neg (by simp [hcond])]
    exact (detectLoop_spec detectO req.tools_to_detect [] []
      (if req.force_refresh then [] else s.cache)).2
  constructor
  · rw [hres, List.length_map]
  · intro i tt hi
    constructor
    · intro t hdet
      rw [hres, List.getElem?_map, hi]
      simp [hdet]
    · intro e hdet
      refine ⟨?_, rfl, rfl, ?_⟩
      · rw [hres, List.getElem?_map, hi]
        simp [hdet]
      · rw [herr]
        refine List.mem_filterMap.mpr ⟨tt, ?_, ?_⟩
        · exact List.getElem?_mem hi
        · rw [hdet]

/-- Witness for C7: with the Gemini probe failing and the others
succeeding, the batch keeps three entries, puts the placeholder at the
failing index and records its message. -/
theorem C7_witness :
    (detect_tools c7detect 0 7 ⟨[], none⟩ c7req).1.tools.length = 3 ∧
    (detect_tools c7detect 0 7 ⟨[], none⟩ c7req).1.tools[1]?
      = some (errorPlaceholder ToolType.gemini_cli "probe failed") ∧
    ("Error detecting " ++ ToolType.gemini_cli.value ++ ": " ++ "probe failed")
      ∈ (detect_tools c7detect 0 7 ⟨[], none⟩ c7req).1.errors ∧
    (detect_tools c7detect 0 7 ⟨[], none⟩ c7req).1.tools[0]? = some fixtureTool := by
  have hmain := C7_per_tool_error_isolation c7detect 0 7 ⟨[], none⟩ c7req
    (Or.inr (by decide))
  have h1 := (hmain.2 1 ToolType.gemini_cli (by decide)).2 "probe failed" rfl
  have h0 := (hmain.2 0 ToolType.claude_code (by decide)).1 fixtureTool rfl
  exact ⟨hmain.1, h1.1, h1.2.2.2, h0⟩

/-! ## Claim C9 -/

/-- The alternate-flag loop returns the first flag whose spawn succeeds
with exit code 0 and whose output yields a truthy version. -/
theorem tryFlags_eq_findSome (run : String → Except String (Int × String))
    (fs : List String) : tryFlags run fs = fs.findSome? (flagVersion run) := by
  induction fs with
  | nil => rfl
  | cons f rest ih =>
    rw [List.findSome?_cons]
    rcases hr : run f with e | p
    · simp only [tryFlags, flagVersion, hr]
      exact ih
    · obtain ⟨rc, out⟩ := p
      simp only [tryFlags, flagVersion, hr]
      by_cases hrc : rc = 0
      · rw [if_pos hrc, if_pos hrc]
        rcases hev : extract_version (pyStrip out) with _ | v
        · simp only [hev]
          exact ih
        · simp only [hev]
          by_cases hv : v = ""
          · rw [if_pos hv, if_pos hv]
            simpa using ih
          · rw [if_neg hv, if_neg hv]
      · rw [if_neg hrc, if_neg hrc]
        exact ih

/-- C9 (amended): when `--version` exits non-zero, the alternate flags
`-V`, `version`, `info` are tried in order with the first flag yielding
a version used — but only for tools whose lowered name contains
"claude"; for every other tool no alternate flag is tried and the
result is `None`. -/
theorem C9_alternate_flags_claude_only
    (run : String → Except String (Int × String)) (tool_name : String)
    (rc : Int) (out : String)
    (h1 : run "--version" = Except.ok (rc, out)) (h2 : ¬ rc = 0) :
    get_version run tool_name
      = if containsSub (pyLower tool_name) "claude"
        then ["-V", "version", "info"].findSome? (flagVersion run)
        else none := by
  unfold get_version
  rw [h1]
  simp only [if_neg h2]
  by_cases hcl : containsSub (pyLower tool_name) "claude" = true
  · rw [if_pos hcl, if_pos hcl]
    exact tryFlags_eq_findSome run _
  · rw [if_neg (by simpa using hcl), if_neg (by simpa using hcl)]

/-- Counterexample for C9 as stated: for the Gemini CLI (name without
"claude"), `--version` exits 1 and the alternate flag `-V` would yield
version 1.2.3, yet `get_version` returns `None` — the alternate flags
are never tried for this tool. -/
theorem C9_counterexample :
    c9cexRun "--version" = Except.ok (1, "") ∧
    ["-V", "version", "info"].findSome? (flagVersion c9cexRun) = some "1.2.3" ∧
    get_version c9cexRun "Gemini CLI" = none := by
  refine ⟨rfl, by decide, by decide⟩

/-- Witness for C9 (amended) on the Claude tool: `--version` exits 1,
`-V` raises, `version` succeeds, and its extracted version is used. -/
theorem C9_witness :
    c9run "--version" = Except.ok (1, "junk") ∧
    get_version c9run "Claude Code" = some "2.3.4" := by
  refine ⟨rfl, ?_⟩
  rw [C9_alternate_flags_claude_only c9run "Claude Code" 1 "junk" rfl (by decide)]
  decide

end Archon
